import Mathlib

/-!
Verification of the Black-Scholes pricing engine (`bs_model.py`).

The definitions below are a shallow embedding of `BlackScholesModel`:
floating-point arithmetic is modelled over `ℝ`, pandas `NaN` results are
modelled with `Option ℝ` (`none` = NaN), and Python exceptions in the
sensitivity sweep are modelled with `Except PyErr`.
-/

open MeasureTheory

/-- Standard normal density, the model of `scipy.stats.norm.pdf`. -/
noncomputable def normPdf (x : ℝ) : ℝ :=
  Real.exp (-(x ^ 2) / 2) / Real.sqrt (2 * Real.pi)

/-- Standard normal cumulative distribution function, the model of
`scipy.stats.norm.cdf`. -/
noncomputable def normCdf (x : ℝ) : ℝ :=
  (∫ t in Set.Iic x, Real.exp (-(t ^ 2) / 2)) / Real.sqrt (2 * Real.pi)

/-- `BlackScholesModel.calculate_time_to_expiry`: dates are modelled at day
granularity (`timedelta.days`), so expiration and "now" are day numbers. -/
noncomputable def calculate_time_to_expiry (expiration_date current_date : ℤ) : ℝ :=
  max (((expiration_date - current_date : ℤ) : ℝ) / 365) 0.0001

/-- `BlackScholesModel.calculate_d1_d2`. -/
noncomputable def calculate_d1_d2 (S K r sigma T : ℝ) : ℝ × ℝ :=
  let d1 := (Real.log (S / K) + (r + 0.5 * sigma ^ 2) * T) / (sigma * Real.sqrt T)
  (d1, d1 - sigma * Real.sqrt T)

/-- Python `str.lower()` (ASCII case folding on the character list). -/
def pyLower (s : String) : String := String.mk (s.data.map Char.toLower)

/-- `BlackScholesModel.calculate_option_price`. -/
noncomputable def calculate_option_price (S K r sigma T : ℝ) (option_type : String) : ℝ :=
  let d := calculate_d1_d2 S K r sigma T
  if pyLower option_type = "call" then
    S * normCdf d.1 - K * Real.exp (-r * T) * normCdf d.2
  else
    K * Real.exp (-r * T) * normCdf (-d.2) - S * normCdf (-d.1)

/-- The Greeks dictionary returned by `calculate_greeks`. -/
structure Greeks where
  delta : ℝ
  gamma : ℝ
  vega : ℝ
  theta : ℝ
  rho : ℝ

/-- `BlackScholesModel.calculate_greeks`. -/
noncomputable def calculate_greeks (S K r sigma T : ℝ) (option_type : String) : Greeks :=
  let d := calculate_d1_d2 S K r sigma T
  let sqrt_T := Real.sqrt T
  let exp_neg_rT := Real.exp (-r * T)
  let n_prime_d1 := normPdf d.1
  if pyLower option_type = "call" then
    { delta := normCdf d.1
      gamma := n_prime_d1 / (S * sigma * sqrt_T)
      vega := S * n_prime_d1 * sqrt_T / 100
      theta := (-S * n_prime_d1 * sigma / (2 * sqrt_T) - r * K * exp_neg_rT * normCdf d.2) / 365
      rho := K * T * exp_neg_rT * normCdf d.2 / 100 }
  else
    { delta := normCdf d.1 - 1
      gamma := n_prime_d1 / (S * sigma * sqrt_T)
      vega := S * n_prime_d1 * sqrt_T / 100
      theta := (-S * n_prime_d1 * sigma / (2 * sqrt_T) + r * K * exp_neg_rT * normCdf (-d.2)) / 365
      rho := -K * T * exp_neg_rT * normCdf (-d.2) / 100 }

/-- `Series.pct_change().dropna()`: simple returns of consecutive pairs
(the leading NaN produced by `pct_change` is dropped). -/
noncomputable def pct_change (price_data : List ℝ) : List ℝ :=
  List.zipWith (fun prev cur => cur / prev - 1) price_data price_data.tail

/-- Arithmetic mean of a list. -/
noncomputable def listMean (l : List ℝ) : ℝ := l.sum / l.length

/-- Sample standard deviation (`ddof = 1`), as pandas `std` computes it. -/
noncomputable def sampleStd (l : List ℝ) : ℝ :=
  Real.sqrt ((l.map (fun x => (x - listMean l) ^ 2)).sum / ((l.length : ℝ) - 1))

/-- `Series.rolling(window).std()`: entry `i` is NaN (`none`) unless the
window is full (`min_periods` defaults to `window`) and the sample standard
deviation is defined (`ddof = 1` needs at least two observations). -/
noncomputable def rollingStd (window : ℕ) (l : List ℝ) : List (Option ℝ) :=
  (List.range l.length).map (fun i =>
    if 2 ≤ window ∧ window ≤ i + 1 then
      some (sampleStd ((l.drop (i + 1 - window)).take window))
    else none)

/-- `BlackScholesModel.calculate_historical_volatility`; `none` models a NaN
return value. -/
noncomputable def calculate_historical_volatility (price_data : List ℝ) (window : ℕ) :
    Option ℝ :=
  let returns := pct_change price_data
  let annualized := (rollingStd window returns).map (fun v => v.map (fun s => s * Real.sqrt 252))
  match annualized.getLast? with
  | some v => v
  | none => some 0.2

/-- The base parameter dictionary `{'S':…, 'K':…, 'r':…, 'sigma':…, 'T':…}`. -/
structure BSInputs where
  S : ℝ
  K : ℝ
  r : ℝ
  sigma : ℝ
  T : ℝ

/-- Which key of the base dictionary the sweep overwrites (`vary_param`). -/
inductive VaryP
  | varyS
  | varyK
  | varySigma
  | varyT
deriving DecidableEq

/-- `params = base_params.copy(); params[vary_param] = x`. -/
def substParams (b : BSInputs) (vp : VaryP) (x : ℝ) : BSInputs :=
  match vp with
  | .varyS => { b with S := x }
  | .varyK => { b with K := x }
  | .varySigma => { b with sigma := x }
  | .varyT => { b with T := x }

/-- Python exceptions observable from `generate_sensitivity_data`. -/
inductive PyErr
  | domainError
  | unboundLocalError
deriving DecidableEq

/-- `np.linspace a b n`. -/
noncomputable def linspace (a b : ℝ) (n : ℕ) : List ℝ :=
  (List.range n).map (fun i : ℕ =>
    if n ≤ 1 then a else a + (i : ℝ) * (b - a) / ((n : ℝ) - 1))

/-- The `(x_values, prices, greeks_dict)` triple returned by the sweep. -/
structure SweepOut where
  x : List ℝ
  prices : List ℝ
  delta : List ℝ
  gamma : List ℝ
  vega : List ℝ
  theta : List ℝ
  rho : List ℝ

/-- Price at a parameter dictionary. -/
noncomputable def priceOf (b : BSInputs) (ot : String) : ℝ :=
  calculate_option_price b.S b.K b.r b.sigma b.T ot

/-- Greeks at a parameter dictionary. -/
noncomputable def greeksOf (b : BSInputs) (ot : String) : Greeks :=
  calculate_greeks b.S b.K b.r b.sigma b.T ot

/-- The `vary_param` string chosen by each recognized `param` branch. -/
def varyOf (param : String) : VaryP :=
  if param = "spot" then .varyS
  else if param = "strike" then .varyK
  else if param = "volatility" then .varySigma
  else .varyT

/-- The accumulation loop of `generate_sensitivity_data`: for each swept
value, substitute it into a copy of the base inputs and collect price and
Greeks into parallel lists. -/
noncomputable def mkSweep (base : BSInputs) (option_type : String) (vp : VaryP)
    (xs : List ℝ) : SweepOut :=
  { x := xs
    prices := xs.map (fun v => priceOf (substParams base vp v) option_type)
    delta := xs.map (fun v => (greeksOf (substParams base vp v) option_type).delta)
    gamma := xs.map (fun v => (greeksOf (substParams base vp v) option_type).gamma)
    vega := xs.map (fun v => (greeksOf (substParams base vp v) option_type).vega)
    theta := xs.map (fun v => (greeksOf (substParams base vp v) option_type).theta)
    rho := xs.map (fun v => (greeksOf (substParams base vp v) option_type).rho) }

/-- `BlackScholesModel.generate_sensitivity_data`.  An unrecognized `param`
leaves `vary_param`/`x_values` unassigned, so the subsequent loop raises
`UnboundLocalError`; the code contains no `raise` of a domain error. -/
noncomputable def generate_sensitivity_data (S K r sigma T : ℝ) (option_type param : String)
    (range_pct : ℝ) (points : ℕ) : Except PyErr SweepOut :=
  let base : BSInputs := ⟨S, K, r, sigma, T⟩
  let xsel : Except PyErr (List ℝ) :=
    if param = "spot" then .ok (linspace (S * (1 - range_pct)) (S * (1 + range_pct)) points)
    else if param = "strike" then .ok (linspace (K * (1 - range_pct)) (K * (1 + range_pct)) points)
    else if param = "volatility" then .ok (linspace (sigma * 0.5) (sigma * 1.5) points)
    else if param = "time" then .ok (linspace 0.01 T points)
    else .error .unboundLocalError
  match xsel with
  | .error e => .error e
  | .ok xs => .ok (mkSweep base option_type (varyOf param) xs)

/-- Projection of a sweep result, with a sentinel for the error case. -/
def sweepRes (e : Except PyErr SweepOut) : SweepOut :=
  match e with
  | .ok o => o
  | .error _ => ⟨[], [], [], [], [], [], []⟩

/-- Whether the sweep returned normally. -/
def sweepIsOk (e : Except PyErr SweepOut) : Bool :=
  match e with
  | .ok _ => true
  | .error _ => false

/-- Index-alignment of a sweep result: each output sequence is the image of
the swept `x` sequence under substitution of the swept value into an
otherwise-unchanged copy of the base inputs. -/
def sweepAligned (b : BSInputs) (ot : String) (vp : VaryP) (o : SweepOut) : Prop :=
  o.prices = o.x.map (fun v => priceOf (substParams b vp v) ot)
  ∧ o.delta = o.x.map (fun v => (greeksOf (substParams b vp v) ot).delta)
  ∧ o.gamma = o.x.map (fun v => (greeksOf (substParams b vp v) ot).gamma)
  ∧ o.vega = o.x.map (fun v => (greeksOf (substParams b vp v) ot).vega)
  ∧ o.theta = o.x.map (fun v => (greeksOf (substParams b vp v) ot).theta)
  ∧ o.rho = o.x.map (fun v => (greeksOf (substParams b vp v) ot).rho)

/-- Call-branch Greeks exactly as written in the specification (section 4.4). -/
noncomputable def spec_greeks_call (S K r sigma T : ℝ) : Greeks :=
  let d := calculate_d1_d2 S K r sigma T
  { delta := normCdf d.1
    gamma := normPdf d.1 / (S * sigma * Real.sqrt T)
    vega := S * normPdf d.1 * Real.sqrt T / 100
    theta := (-S * normPdf d.1 * sigma / (2 * Real.sqrt T)
              - r * K * Real.exp (-(r * T)) * normCdf d.2) / 365
    rho := K * T * Real.exp (-(r * T)) * normCdf d.2 / 100 }

/-- Put-branch Greeks exactly as written in the specification (section 4.4). -/
noncomputable def spec_greeks_put (S K r sigma T : ℝ) : Greeks :=
  let d := calculate_d1_d2 S K r sigma T
  { delta := normCdf d.1 - 1
    gamma := normPdf d.1 / (S * sigma * Real.sqrt T)
    vega := S * normPdf d.1 * Real.sqrt T / 100
    theta := (-S * normPdf d.1 * sigma / (2 * Real.sqrt T)
              + r * K * Real.exp (-(r * T)) * normCdf (-d.2)) / 365
    rho := -(K * T * Real.exp (-(r * T)) * normCdf (-d.2)) / 100 }

/-! ### Facts about the Gaussian CDF -/

/-- The integrand of `normCdf`, rewritten in the form used by Mathlib's
Gaussian integral lemmas. -/
theorem gaussFun_eq :
    (fun t : ℝ => Real.exp (-(t ^ 2) / 2)) = fun t : ℝ => Real.exp (-(2⁻¹ : ℝ) * t ^ 2) := by
  funext t
  congr 1
  ring

theorem integrable_gauss : Integrable (fun t : ℝ => Real.exp (-(t ^ 2) / 2)) := by
  rw [gaussFun_eq]
  exact integrable_exp_neg_mul_sq (by norm_num)

theorem integral_gauss_total :
    (∫ t : ℝ, Real.exp (-(t ^ 2) / 2)) = Real.sqrt (2 * Real.pi) := by
  rw [gaussFun_eq, integral_gaussian]
  congr 1
  ring

theorem sqrt_two_pi_pos : 0 < Real.sqrt (2 * Real.pi) :=
  Real.sqrt_pos.mpr (by positivity)

theorem integral_gauss_Ioi_zero :
    (∫ t in Set.Ioi (0 : ℝ), Real.exp (-(t ^ 2) / 2)) = Real.sqrt (2 * Real.pi) / 2 := by
  have h : ∀ t : ℝ, Real.exp (-(t ^ 2) / 2) = Real.exp (-(2⁻¹ : ℝ) * t ^ 2) := fun t => by
    congr 1; ring
  simp_rw [h]
  rw [integral_gaussian_Ioi]
  congr 2
  ring

theorem integral_gauss_Iic_zero :
    (∫ t in Set.Iic (0 : ℝ), Real.exp (-(t ^ 2) / 2)) = Real.sqrt (2 * Real.pi) / 2 := by
  have hsplit := intervalIntegral.integral_Iic_add_Ioi (b := (0 : ℝ)) (μ := volume)
    integrable_gauss.integrableOn integrable_gauss.integrableOn
  rw [integral_gauss_Ioi_zero, integral_gauss_total] at hsplit
  linarith

theorem normCdf_zero : normCdf 0 = 1 / 2 := by
  unfold normCdf
  rw [integral_gauss_Iic_zero, div_div]
  rw [div_eq_iff (by positivity), one_div]
  field_simp

theorem normCdf_add_neg (x : ℝ) : normCdf x + normCdf (-x) = 1 := by
  have hneg : (∫ t in Set.Iic (-x), Real.exp (-(t ^ 2) / 2))
      = ∫ t in Set.Ioi x, Real.exp (-(t ^ 2) / 2) := by
    have h := integral_comp_neg_Iic (-x) (fun t : ℝ => Real.exp (-(t ^ 2) / 2))
    simpa using h
  have hsplit := intervalIntegral.integral_Iic_add_Ioi (b := x) (μ := volume)
    integrable_gauss.integrableOn integrable_gauss.integrableOn
  rw [integral_gauss_total] at hsplit
  unfold normCdf
  rw [hneg, div_add_div_same, hsplit, div_self (ne_of_gt sqrt_two_pi_pos)]

theorem normCdf_neg (x : ℝ) : normCdf (-x) = 1 - normCdf x := by
  linarith [normCdf_add_neg x]

/-! ### Claim theorems: easy ones first -/

/-- C9: for every target expiration date (including past-due and same-day
dates), `calculate_time_to_expiry` returns `max ((target - now) / 365) ε`
with floor `ε = 0.0001`, hence is always strictly positive and never
raises. -/
theorem C9_time_to_expiry_clamped (expiration_date current_date : ℤ) :
    calculate_time_to_expiry expiration_date current_date
      = max (((expiration_date - current_date : ℤ) : ℝ) / 365) 0.0001
    ∧ 0 < calculate_time_to_expiry expiration_date current_date := by
  refine ⟨rfl, ?_⟩
  calc (0 : ℝ) < 0.0001 := by norm_num
    _ ≤ calculate_time_to_expiry expiration_date current_date := le_max_right _ _

/-- C10: option-type dispatch is case-insensitive; any string whose
lowercase form is not `"call"` takes the Put branch of both
`calculate_option_price` and `calculate_greeks`, any string lowering to
`"call"` takes the Call branch, and no string is an error. -/
theorem C10_case_insensitive_dispatch (S K r sigma T : ℝ) (s : String) :
    calculate_option_price S K r sigma T s
      = calculate_option_price S K r sigma T (if pyLower s = "call" then "call" else "put")
    ∧ calculate_greeks S K r sigma T s
      = calculate_greeks S K r sigma T (if pyLower s = "call" then "call" else "put") := by
  have hc : pyLower "call" = "call" := rfl
  have hp : ¬ pyLower "put" = "call" := by decide
  by_cases h : pyLower s = "call"
  · rw [if_pos h]
    constructor
    · simp only [calculate_option_price, h, hc]
    · simp only [calculate_greeks, h, hc]
  · rw [if_neg h]
    constructor
    · simp only [calculate_option_price, if_neg h, if_neg hp]
    · simp only [calculate_greeks, if_neg h, if_neg hp]

/-- C3: `calculate_greeks` returns exactly the closed-form Greeks of the
specification, with the fixed unit conventions (vega and rho divided by
100, theta divided by 365). -/
theorem C3_greeks_closed_form (S K r sigma T : ℝ) (ot : String) :
    (pyLower ot = "call" →
      calculate_greeks S K r sigma T ot = spec_greeks_call S K r sigma T)
    ∧ (pyLower ot ≠ "call" →
      calculate_greeks S K r sigma T ot = spec_greeks_put S K r sigma T) := by
  constructor
  · intro h
    simp [calculate_greeks, spec_greeks_call, if_pos h, neg_mul]
  · intro h
    simp [calculate_greeks, spec_greeks_put, if_neg h, neg_mul]

/-- Witness for C3 at concrete inputs and both branches. -/
theorem C3_greeks_closed_form_witness :
    calculate_greeks 100 100 0.05 0.2 1 "call" = spec_greeks_call 100 100 0.05 0.2 1
    ∧ calculate_greeks 100 100 0.05 0.2 1 "Put" = spec_greeks_put 100 100 0.05 0.2 1 :=
  ⟨(C3_greeks_closed_form 100 100 0.05 0.2 1 "call").1 (by decide),
   (C3_greeks_closed_form 100 100 0.05 0.2 1 "Put").2 (by decide)⟩

/-- C7: gamma and vega agree between Call and Put (indeed between any two
option-type strings) and are strictly positive for positive inputs. -/
theorem C7_gamma_vega_symmetry_positivity (S K r sigma T : ℝ)
    (hS : 0 < S) (hsig : 0 < sigma) (hT : 0 < T) (ot1 ot2 : String) :
    (calculate_greeks S K r sigma T ot1).gamma = (calculate_greeks S K r sigma T ot2).gamma
    ∧ (calculate_greeks S K r sigma T ot1).vega = (calculate_greeks S K r sigma T ot2).vega
    ∧ 0 < (calculate_greeks S K r sigma T ot1).gamma
    ∧ 0 < (calculate_greeks S K r sigma T ot1).vega := by
  have hgamma : ∀ ot : String, (calculate_greeks S K r sigma T ot).gamma
      = normPdf (calculate_d1_d2 S K r sigma T).1 / (S * sigma * Real.sqrt T) := by
    intro ot
    by_cases h : pyLower ot = "call" <;> simp [calculate_greeks, h]
  have hvega : ∀ ot : String, (calculate_greeks S K r sigma T ot).vega
      = S * normPdf (calculate_d1_d2 S K r sigma T).1 * Real.sqrt T / 100 := by
    intro ot
    by_cases h : pyLower ot = "call" <;> simp [calculate_greeks, h]
  have hpdf : 0 < normPdf (calculate_d1_d2 S K r sigma T).1 := by
    unfold normPdf
    exact div_pos (Real.exp_pos _) sqrt_two_pi_pos
  have hsqrtT : 0 < Real.sqrt T := Real.sqrt_pos.mpr hT
  refine ⟨by rw [hgamma, hgamma], by rw [hvega, hvega], ?_, ?_⟩
  · rw [hgamma]
    exact div_pos hpdf (by positivity)
  · rw [hvega]
    positivity

/-- Witness for C7 at concrete inputs. -/
theorem C7_gamma_vega_symmetry_positivity_witness :
    (calculate_greeks 100 100 0.05 0.2 1 "call").gamma
        = (calculate_greeks 100 100 0.05 0.2 1 "put").gamma
    ∧ (calculate_greeks 100 100 0.05 0.2 1 "call").vega
        = (calculate_greeks 100 100 0.05 0.2 1 "put").vega
    ∧ 0 < (calculate_greeks 100 100 0.05 0.2 1 "call").gamma
    ∧ 0 < (calculate_greeks 100 100 0.05 0.2 1 "call").vega :=
  C7_gamma_vega_symmetry_positivity 100 100 0.05 0.2 1
    (by norm_num) (by norm_num) (by norm_num) "call" "put"

/-- C2: put-call parity holds exactly in the real-number model:
`price(Call) - price(Put) = S - K·exp(-r·T)`. -/
theorem C2_put_call_parity (S K r sigma T : ℝ)
    (_hS : 0 < S) (_hK : 0 < K) (_hsig : 0 < sigma) (_hT : 0 < T) :
    calculate_option_price S K r sigma T "call" - calculate_option_price S K r sigma T "put"
      = S - K * Real.exp (-r * T) := by
  have hc : pyLower "call" = "call" := rfl
  have hp : ¬ pyLower "put" = "call" := by decide
  simp only [calculate_option_price, if_pos hc, if_neg hp]
  have h1 := normCdf_neg (calculate_d1_d2 S K r sigma T).1
  have h2 := normCdf_neg (calculate_d1_d2 S K r sigma T).2
  rw [h1, h2]
  ring

/-- Witness for C2 at concrete inputs. -/
theorem C2_put_call_parity_witness :
    calculate_option_price 100 100 0.05 0.2 1 "call"
        - calculate_option_price 100 100 0.05 0.2 1 "put"
      = 100 - 100 * Real.exp (-0.05 * 1) :=
  C2_put_call_parity 100 100 0.05 0.2 1 (by norm_num) (by norm_num) (by norm_num) (by norm_num)

/-! ### Facts about `linspace` -/

theorem linspace_length (a b : ℝ) (n : ℕ) : (linspace a b n).length = n := by
  simp [linspace]

theorem linspace_head (a b : ℝ) {n : ℕ} (h : 1 ≤ n) : (linspace a b n).head? = some a := by
  unfold linspace
  rw [List.head?_map]
  cases n with
  | zero => omega
  | succ m =>
    rw [show (List.range (m + 1)).head? = some 0 from by simp [List.range_succ_eq_map]]
    simp only [Option.map_some']
    split <;> simp

theorem linspace_getLast (a b : ℝ) {n : ℕ} (h : 2 ≤ n) :
    (linspace a b n).getLast? = some b := by
  rw [List.getLast?_eq_getElem?, linspace_length a b n]
  unfold linspace
  rw [List.getElem?_map]
  rw [List.getElem?_range (by omega : n - 1 < n)]
  simp only [Option.map_some']
  have hn1 : ¬ (n ≤ 1) := by omega
  rw [if_neg hn1]
  have hcast : ((n - 1 : ℕ) : ℝ) = (n : ℝ) - 1 := by
    push_cast [Nat.cast_sub (by omega : 1 ≤ n)]
    ring
  have hne : ((n : ℝ) - 1) ≠ 0 := by
    have h2 : (2 : ℝ) ≤ (n : ℝ) := by exact_mod_cast h
    linarith
  rw [hcast]
  congr 1
  field_simp

theorem linspace_chain' {a b : ℝ} (h : a < b) (n : ℕ) :
    List.Chain' (· < ·) (linspace a b n) := by
  rw [List.chain'_iff_get]
  intro i hi
  rw [linspace_length a b n] at hi
  have hi1 : i + 1 < n := by omega
  have hn1 : ¬ (n ≤ 1) := by omega
  simp only [linspace, List.get_eq_getElem, List.getElem_map, List.getElem_range, if_neg hn1]
  have hm : (0 : ℝ) < (n : ℝ) - 1 := by
    have h2 : (2 : ℝ) ≤ (n : ℝ) := by exact_mod_cast (by omega : 2 ≤ n)
    linarith
  have hd : (0 : ℝ) < b - a := sub_pos.mpr h
  have hz : (0 : ℝ) < (b - a) * ((n : ℝ) - 1)⁻¹ := mul_pos hd (inv_pos.mpr hm)
  push_cast
  simp only [div_eq_mul_inv]
  nlinarith [hz]

/-! ### C4: the code raises no DomainError anywhere -/

/-- C4 counterexample: an unrecognized sweep param selector does not raise a
DomainError; the loop body hits the unassigned local and raises
`UnboundLocalError` instead. -/
theorem C4_counterexample :
    generate_sensitivity_data 100 100 0.05 0.2 1 "call" "quux" 0.2 50
      = Except.error PyErr.unboundLocalError
    ∧ generate_sensitivity_data 100 100 0.05 0.2 1 "call" "quux" 0.2 50
      ≠ Except.error PyErr.domainError := by
  constructor
  · simp [generate_sensitivity_data]
  · simp [generate_sensitivity_data]

/-- C4 amended: no input ever produces a DomainError; non-positive numeric
inputs flow through the total real-valued formulas unchecked, an
unrecognized option type silently selects the Put branch, and an
unrecognized param selector raises `UnboundLocalError`. -/
theorem C4_amended_no_domain_error (S K r sigma T range_pct : ℝ) (ot param : String)
    (points : ℕ) :
    generate_sensitivity_data S K r sigma T ot param range_pct points
      ≠ Except.error PyErr.domainError
    ∧ (param ≠ "spot" → param ≠ "strike" → param ≠ "volatility" → param ≠ "time" →
        generate_sensitivity_data S K r sigma T ot param range_pct points
          = Except.error PyErr.unboundLocalError) := by
  constructor
  · by_cases h1 : param = "spot"
    · simp [generate_sensitivity_data, h1]
    · by_cases h2 : param = "strike"
      · simp [generate_sensitivity_data, h1, h2]
      · by_cases h3 : param = "volatility"
        · simp [generate_sensitivity_data, h1, h2, h3]
        · by_cases h4 : param = "time"
          · simp [generate_sensitivity_data, h1, h2, h3, h4]
          · simp [generate_sensitivity_data, h1, h2, h3, h4]
  · intro h1 h2 h3 h4
    simp [generate_sensitivity_data, h1, h2, h3, h4]

/-- Witness for the amended C4 at a concrete unrecognized selector. -/
theorem C4_amended_no_domain_error_witness :
    generate_sensitivity_data 100 100 0.05 0.2 1 "call" "foo" 0.2 50
      ≠ Except.error PyErr.domainError
    ∧ generate_sensitivity_data 100 100 0.05 0.2 1 "call" "foo" 0.2 50
      = Except.error PyErr.unboundLocalError := by
  have h := C4_amended_no_domain_error 100 100 0.05 0.2 1 0.2 "call" "foo" 50
  exact ⟨h.1, h.2 (by decide) (by decide) (by decide) (by decide)⟩

/-! ### C6: historical-volatility degenerate series -/

/-- C6 counterexample: a 2-element price series has exactly one (fewer than
two) return observations, yet the function returns NaN (`rolling(30).std()`
of a single return), not the 0.20 fallback. -/
theorem C6_counterexample :
    calculate_historical_volatility [1, 2] 30 = none
    ∧ (none : Option ℝ) ≠ some 0.2 := by
  constructor
  · simp [calculate_historical_volatility, pct_change, rollingStd, List.range_succ]
  · simp

/-- C6 amended: the 0.20 fallback is returned exactly when the return series
is empty (empty or 1-element price series); a series with one return but a
window of at least its default size yields NaN, not the fallback. -/
theorem C6_amended_fallback (window : ℕ) (p q : ℝ) (_hw : 1 ≤ window) :
    calculate_historical_volatility [] window = some 0.2
    ∧ calculate_historical_volatility [p] window = some 0.2
    ∧ calculate_historical_volatility [p, q] window = none := by
  have hcond : ¬ (2 ≤ window ∧ window ≤ 0 + 1) := by omega
  refine ⟨?_, ?_, ?_⟩
  · simp [calculate_historical_volatility, pct_change, rollingStd]
  · simp [calculate_historical_volatility, pct_change, rollingStd]
  · simp [calculate_historical_volatility, pct_change, rollingStd, hcond, List.range_succ]

/-- Witness for the amended C6 at the default window. -/
theorem C6_amended_fallback_witness :
    calculate_historical_volatility [] 30 = some 0.2
    ∧ calculate_historical_volatility [(1 : ℝ)] 30 = some 0.2
    ∧ calculate_historical_volatility [(1 : ℝ), 2] 30 = none :=
  C6_amended_fallback 30 1 2 (by norm_num)

/-! ### Shape of the sweep result for recognized selectors -/

theorem gen_spot_eq (S K r sigma T rp : ℝ) (ot : String) (pts : ℕ) :
    generate_sensitivity_data S K r sigma T ot "spot" rp pts
      = Except.ok (mkSweep ⟨S, K, r, sigma, T⟩ ot (varyOf "spot")
          (linspace (S * (1 - rp)) (S * (1 + rp)) pts)) := by
  simp [generate_sensitivity_data]

theorem gen_strike_eq (S K r sigma T rp : ℝ) (ot : String) (pts : ℕ) :
    generate_sensitivity_data S K r sigma T ot "strike" rp pts
      = Except.ok (mkSweep ⟨S, K, r, sigma, T⟩ ot (varyOf "strike")
          (linspace (K * (1 - rp)) (K * (1 + rp)) pts)) := by
  simp [generate_sensitivity_data]

theorem gen_volatility_eq (S K r sigma T rp : ℝ) (ot : String) (pts : ℕ) :
    generate_sensitivity_data S K r sigma T ot "volatility" rp pts
      = Except.ok (mkSweep ⟨S, K, r, sigma, T⟩ ot (varyOf "volatility")
          (linspace (sigma * 0.5) (sigma * 1.5) pts)) := by
  simp [generate_sensitivity_data]

theorem gen_time_eq (S K r sigma T rp : ℝ) (ot : String) (pts : ℕ) :
    generate_sensitivity_data S K r sigma T ot "time" rp pts
      = Except.ok (mkSweep ⟨S, K, r, sigma, T⟩ ot (varyOf "time")
          (linspace 0.01 T pts)) := by
  simp [generate_sensitivity_data]

theorem mkSweep_x (b : BSInputs) (ot : String) (vp : VaryP) (xs : List ℝ) :
    (mkSweep b ot vp xs).x = xs := rfl

theorem mkSweep_aligned (b : BSInputs) (ot : String) (vp : VaryP) (xs : List ℝ) :
    sweepAligned b ot vp (mkSweep b ot vp xs) :=
  ⟨rfl, rfl, rfl, rfl, rfl, rfl⟩

theorem mkSweep_lengths (b : BSInputs) (ot : String) (vp : VaryP) (xs : List ℝ) :
    (mkSweep b ot vp xs).prices.length = xs.length
    ∧ (mkSweep b ot vp xs).delta.length = xs.length
    ∧ (mkSweep b ot vp xs).gamma.length = xs.length
    ∧ (mkSweep b ot vp xs).vega.length = xs.length
    ∧ (mkSweep b ot vp xs).theta.length = xs.length
    ∧ (mkSweep b ot vp xs).rho.length = xs.length := by
  simp [mkSweep]

/-! ### C5: sweep ranges -/

/-- C5 counterexample: with `range_pct = 0.2` the volatility sweep starts at
`0.5·σ = 0.1`, not at `σ·(1 − range_pct) = 0.16`; the code hard-codes a
±50 % band for volatility and ignores `range_pct`. -/
theorem C5_counterexample :
    (sweepRes (generate_sensitivity_data 100 100 0.05 0.2 1 "call" "volatility" 0.2 2)).x
      = [0.1, 0.3]
    ∧ ¬ ((0.1 : ℝ) = 0.2 * (1 - 0.2)) := by
  constructor
  · rw [gen_volatility_eq]
    simp [sweepRes, mkSweep, linspace, List.range_succ]
    norm_num
  · norm_num

/-- C5 amended: the swept sequence has `points` values; for `spot`/`strike`
it runs from `base·(1 − range_pct)` to `base·(1 + range_pct)`, for
`volatility` it runs from `0.5·σ` to `1.5·σ` regardless of `range_pct`, and
for `time` from the 0.01 floor to the base `T`. -/
theorem C5_sweep_spans (S K r sigma T range_pct : ℝ) (ot : String) (points : ℕ)
    (hpts : 2 ≤ points) :
    ((sweepRes (generate_sensitivity_data S K r sigma T ot "spot" range_pct points)).x.length
        = points
      ∧ (sweepRes (generate_sensitivity_data S K r sigma T ot "spot" range_pct points)).x.head?
        = some (S * (1 - range_pct))
      ∧ (sweepRes (generate_sensitivity_data S K r sigma T ot "spot" range_pct points)).x.getLast?
        = some (S * (1 + range_pct)))
    ∧ ((sweepRes (generate_sensitivity_data S K r sigma T ot "strike" range_pct points)).x.length
        = points
      ∧ (sweepRes (generate_sensitivity_data S K r sigma T ot "strike" range_pct points)).x.head?
        = some (K * (1 - range_pct))
      ∧ (sweepRes (generate_sensitivity_data S K r sigma T ot "strike" range_pct points)).x.getLast?
        = some (K * (1 + range_pct)))
    ∧ ((sweepRes (generate_sensitivity_data S K r sigma T ot "volatility" range_pct points)).x.length
        = points
      ∧ (sweepRes (generate_sensitivity_data S K r sigma T ot "volatility" range_pct points)).x.head?
        = some (sigma * 0.5)
      ∧ (sweepRes (generate_sensitivity_data S K r sigma T ot "volatility" range_pct points)).x.getLast?
        = some (sigma * 1.5))
    ∧ ((sweepRes (generate_sensitivity_data S K r sigma T ot "time" range_pct points)).x.length
        = points
      ∧ (sweepRes (generate_sensitivity_data S K r sigma T ot "time" range_pct points)).x.head?
        = some 0.01
      ∧ (sweepRes (generate_sensitivity_data S K r sigma T ot "time" range_pct points)).x.getLast?
        = some T) := by
  rw [gen_spot_eq, gen_strike_eq, gen_volatility_eq, gen_time_eq]
  simp only [sweepRes, mkSweep_x]
  exact ⟨⟨linspace_length _ _ _, linspace_head _ _ (by omega), linspace_getLast _ _ hpts⟩,
         ⟨linspace_length _ _ _, linspace_head _ _ (by omega), linspace_getLast _ _ hpts⟩,
         ⟨linspace_length _ _ _, linspace_head _ _ (by omega), linspace_getLast _ _ hpts⟩,
         ⟨linspace_length _ _ _, linspace_head _ _ (by omega), linspace_getLast _ _ hpts⟩⟩

/-- Witness for the amended C5 at concrete inputs. -/
theorem C5_sweep_spans_witness :
    (sweepRes (generate_sensitivity_data 100 100 0.05 0.2 1 "call" "spot" 0.2 50)).x.head?
      = some (100 * (1 - 0.2))
    ∧ (sweepRes (generate_sensitivity_data 100 100 0.05 0.2 1 "call" "volatility" 0.2 50)).x.head?
      = some (0.2 * 0.5) := by
  have h := C5_sweep_spans 100 100 0.05 0.2 1 0.2 "call" 50 (by norm_num)
  exact ⟨h.1.2.1, h.2.2.1.2.1⟩

/-! ### C8: sweep alignment and ordering -/

/-- C8 counterexample: with range fraction 0 the spot sweep is the constant
sequence `[S, S]`, which is not strictly ascending. -/
theorem C8_counterexample :
    (sweepRes (generate_sensitivity_data 100 100 0.05 0.2 1 "call" "spot" 0 2)).x
      = [100, 100]
    ∧ ¬ List.Chain' (· < ·)
        ((sweepRes (generate_sensitivity_data 100 100 0.05 0.2 1 "call" "spot" 0 2)).x) := by
  have hx : (sweepRes (generate_sensitivity_data 100 100 0.05 0.2 1 "call" "spot" 0 2)).x
      = [100, 100] := by
    rw [gen_spot_eq]
    simp [sweepRes, mkSweep, linspace, List.range_succ]
  refine ⟨hx, ?_⟩
  rw [hx]
  simp

/-- C8 amended: for every recognized selector the sweep succeeds and its
output sequences (x, price, and all five Greeks) have length `points` and
are index-aligned by substitution into the base inputs; `x` is strictly
ascending provided the selected band is nondegenerate (positive base and
range fraction for spot/strike, positive `σ` for volatility, `T` above the
0.01 floor for time). -/
theorem C8_sweep_alignment (S K r sigma T range_pct : ℝ) (ot param : String) (points : ℕ)
    (hS : 0 < S) (hK : 0 < K) (hsig : 0 < sigma) (hrp : 0 < range_pct) (hT : 0.01 < T)
    (hparam : param = "spot" ∨ param = "strike" ∨ param = "volatility" ∨ param = "time") :
    sweepIsOk (generate_sensitivity_data S K r sigma T ot param range_pct points) = true
    ∧ (sweepRes (generate_sensitivity_data S K r sigma T ot param range_pct points)).x.length
        = points
    ∧ (sweepRes (generate_sensitivity_data S K r sigma T ot param range_pct points)).prices.length
        = points
    ∧ (sweepRes (generate_sensitivity_data S K r sigma T ot param range_pct points)).delta.length
        = points
    ∧ (sweepRes (generate_sensitivity_data S K r sigma T ot param range_pct points)).gamma.length
        = points
    ∧ (sweepRes (generate_sensitivity_data S K r sigma T ot param range_pct points)).vega.length
        = points
    ∧ (sweepRes (generate_sensitivity_data S K r sigma T ot param range_pct points)).theta.length
        = points
    ∧ (sweepRes (generate_sensitivity_data S K r sigma T ot param range_pct points)).rho.length
        = points
    ∧ List.Chain' (· < ·)
        ((sweepRes (generate_sensitivity_data S K r sigma T ot param range_pct points)).x)
    ∧ sweepAligned ⟨S, K, r, sigma, T⟩ ot (varyOf param)
        (sweepRes (generate_sensitivity_data S K r sigma T ot param range_pct points)) := by
  have hxlen := linspace_length
  rcases hparam with h | h | h | h <;> subst h
  · rw [gen_spot_eq]
    have hlt : S * (1 - range_pct) < S * (1 + range_pct) := by nlinarith
    have hl := mkSweep_lengths (⟨S, K, r, sigma, T⟩ : BSInputs) ot (varyOf "spot")
      (linspace (S * (1 - range_pct)) (S * (1 + range_pct)) points)
    simp only [sweepRes, sweepIsOk, mkSweep_x, linspace_length] at hl ⊢
    exact ⟨trivial, trivial, hl.1, hl.2.1, hl.2.2.1, hl.2.2.2.1, hl.2.2.2.2.1, hl.2.2.2.2.2,
      linspace_chain' hlt points, mkSweep_aligned _ _ _ _⟩
  · rw [gen_strike_eq]
    have hlt : K * (1 - range_pct) < K * (1 + range_pct) := by nlinarith
    have hl := mkSweep_lengths (⟨S, K, r, sigma, T⟩ : BSInputs) ot (varyOf "strike")
      (linspace (K * (1 - range_pct)) (K * (1 + range_pct)) points)
    simp only [sweepRes, sweepIsOk, mkSweep_x, linspace_length] at hl ⊢
    exact ⟨trivial, trivial, hl.1, hl.2.1, hl.2.2.1, hl.2.2.2.1, hl.2.2.2.2.1, hl.2.2.2.2.2,
      linspace_chain' hlt points, mkSweep_aligned _ _ _ _⟩
  · rw [gen_volatility_eq]
    have hlt : sigma * 0.5 < sigma * 1.5 := by nlinarith
    have hl := mkSweep_lengths (⟨S, K, r, sigma, T⟩ : BSInputs) ot (varyOf "volatility")
      (linspace (sigma * 0.5) (sigma * 1.5) points)
    simp only [sweepRes, sweepIsOk, mkSweep_x, linspace_length] at hl ⊢
    exact ⟨trivial, trivial, hl.1, hl.2.1, hl.2.2.1, hl.2.2.2.1, hl.2.2.2.2.1, hl.2.2.2.2.2,
      linspace_chain' hlt points, mkSweep_aligned _ _ _ _⟩
  · rw [gen_time_eq]
    have hlt : (0.01 : ℝ) < T := hT
    have hl := mkSweep_lengths (⟨S, K, r, sigma, T⟩ : BSInputs) ot (varyOf "time")
      (linspace 0.01 T points)
    simp only [sweepRes, sweepIsOk, mkSweep_x, linspace_length] at hl ⊢
    exact ⟨trivial, trivial, hl.1, hl.2.1, hl.2.2.1, hl.2.2.2.1, hl.2.2.2.2.1, hl.2.2.2.2.2,
      linspace_chain' hlt points, mkSweep_aligned _ _ _ _⟩

/-- Witness for the amended C8 at concrete inputs. -/
theorem C8_sweep_alignment_witness :
    sweepIsOk (generate_sensitivity_data 100 100 0.05 0.2 1 "call" "spot" 0.2 50) = true
    ∧ (sweepRes (generate_sensitivity_data 100 100 0.05 0.2 1 "call" "spot" 0.2 50)).x.length
        = 50
    ∧ List.Chain' (· < ·)
        ((sweepRes (generate_sensitivity_data 100 100 0.05 0.2 1 "call" "spot" 0.2 50)).x) := by
  have h := C8_sweep_alignment 100 100 0.05 0.2 1 0.2 "call" "spot" 50
    (by norm_num) (by norm_num) (by norm_num) (by norm_num) (by norm_num) (Or.inl rfl)
  exact ⟨h.1, h.2.1, h.2.2.2.2.2.2.2.2.1⟩

/-! ### Numeric evaluation of the Gaussian CDF by Taylor bounds -/

theorem gauss_continuous : Continuous (fun t : ℝ => Real.exp (-(t ^ 2) / 2)) :=
  Real.continuous_exp.comp ((continuous_pow 2).neg.div_const 2)

theorem gauss_intervalIntegrable (a b : ℝ) :
    IntervalIntegrable (fun t : ℝ => Real.exp (-(t ^ 2) / 2)) volume a b :=
  gauss_continuous.intervalIntegrable a b

theorem normCdf_eq_add (a : ℝ) :
    normCdf a = 1 / 2 + (∫ t in (0 : ℝ)..a, Real.exp (-(t ^ 2) / 2)) / Real.sqrt (2 * Real.pi) := by
  have h := intervalIntegral.integral_Iic_sub_Iic (a := (0 : ℝ)) (b := a) (μ := volume)
    integrable_gauss.integrableOn integrable_gauss.integrableOn
  have hIic : (∫ t in Set.Iic a, Real.exp (-(t ^ 2) / 2))
      = Real.sqrt (2 * Real.pi) / 2 + ∫ t in (0 : ℝ)..a, Real.exp (-(t ^ 2) / 2) := by
    rw [← integral_gauss_Iic_zero]
    linarith [h]
  unfold normCdf
  rw [hIic, add_div]
  congr 1
  rw [show Real.sqrt (2 * Real.pi) / 2 = (1 / 2) * Real.sqrt (2 * Real.pi) from by ring,
    mul_div_assoc, div_self (ne_of_gt sqrt_two_pi_pos), mul_one]

theorem integral_poly8 (c0 c2 c4 c6 c8 a : ℝ) :
    (∫ t in (0 : ℝ)..a, (c0 + c2 * t ^ 2 + c4 * t ^ 4 + c6 * t ^ 6 + c8 * t ^ 8))
      = c0 * a + c2 * a ^ 3 / 3 + c4 * a ^ 5 / 5 + c6 * a ^ 7 / 7 + c8 * a ^ 9 / 9 := by
  have cterm : ∀ (c : ℝ) (k : ℕ), Continuous fun t : ℝ => c * t ^ k := fun c k =>
    continuous_const.mul (continuous_pow k)
  have iterm : ∀ (c : ℝ) (k : ℕ), (∫ t in (0 : ℝ)..a, c * t ^ k) = c * a ^ (k + 1) / (k + 1) := by
    intro c k
    rw [intervalIntegral.integral_const_mul, integral_pow]
    rw [zero_pow (Nat.succ_ne_zero k)]
    ring
  have h1 : Continuous fun t : ℝ => c0 + c2 * t ^ 2 := continuous_const.add (cterm c2 2)
  have h2 : Continuous fun t : ℝ => c0 + c2 * t ^ 2 + c4 * t ^ 4 := h1.add (cterm c4 4)
  have h3 : Continuous fun t : ℝ => c0 + c2 * t ^ 2 + c4 * t ^ 4 + c6 * t ^ 6 :=
    h2.add (cterm c6 6)
  rw [intervalIntegral.integral_add (h3.intervalIntegrable 0 a)
    ((cterm c8 8).intervalIntegrable 0 a)]
  rw [intervalIntegral.integral_add (h2.intervalIntegrable 0 a)
    ((cterm c6 6).intervalIntegrable 0 a)]
  rw [intervalIntegral.integral_add (h1.intervalIntegrable 0 a)
    ((cterm c4 4).intervalIntegrable 0 a)]
  rw [intervalIntegral.integral_add (continuous_const.intervalIntegrable 0 a)
    ((cterm c2 2).intervalIntegrable 0 a)]
  rw [intervalIntegral.integral_const, iterm c2 2, iterm c4 4, iterm c6 6, iterm c8 8]
  simp only [smul_eq_mul]
  push_cast
  ring

theorem gauss_taylor_bound {t : ℝ} (ht : t ^ 2 ≤ 2) :
    |Real.exp (-(t ^ 2) / 2) - (1 - t ^ 2 / 2 + t ^ 4 / 8 - t ^ 6 / 48)| ≤ 5 * t ^ 8 / 1536 := by
  have hx : |(-(t ^ 2) / 2 : ℝ)| ≤ 1 := by
    rw [abs_le]
    constructor <;> nlinarith [sq_nonneg t]
  have h := Real.exp_bound hx (n := 4) (by norm_num)
  have habs : |(-(t ^ 2) / 2 : ℝ)| = t ^ 2 / 2 := by
    rw [abs_of_nonpos (by nlinarith [sq_nonneg t])]
    ring
  have hsum : (∑ m ∈ Finset.range 4, (-(t ^ 2) / 2) ^ m / (m.factorial : ℝ))
      = 1 - t ^ 2 / 2 + t ^ 4 / 8 - t ^ 6 / 48 := by
    simp [Finset.sum_range_succ, Nat.factorial]
    ring
  rw [hsum] at h
  calc |Real.exp (-(t ^ 2) / 2) - (1 - t ^ 2 / 2 + t ^ 4 / 8 - t ^ 6 / 48)|
      ≤ |(-(t ^ 2) / 2 : ℝ)| ^ 4 * ((4 : ℕ).succ / ((4 : ℕ).factorial * (4 : ℕ))) := h
    _ = 5 * t ^ 8 / 1536 := by
        rw [habs]
        norm_num [Nat.factorial]
        ring

theorem int_gauss_lb {a : ℝ} (h0 : 0 ≤ a) (h1 : a ≤ 1) :
    a - a ^ 3 / 6 + a ^ 5 / 40 - a ^ 7 / 336 - 5 * a ^ 9 / 13824
      ≤ ∫ t in (0 : ℝ)..a, Real.exp (-(t ^ 2) / 2) := by
  have hpoly : Continuous fun t : ℝ =>
      1 + (-1 / 2) * t ^ 2 + (1 / 8) * t ^ 4 + (-1 / 48) * t ^ 6 + (-5 / 1536) * t ^ 8 := by
    continuity
  have hle : ∀ t ∈ Set.Icc (0 : ℝ) a,
      1 + (-1 / 2) * t ^ 2 + (1 / 8) * t ^ 4 + (-1 / 48) * t ^ 6 + (-5 / 1536) * t ^ 8
        ≤ Real.exp (-(t ^ 2) / 2) := by
    intro t ht
    have ht2 : t ^ 2 ≤ 2 := by nlinarith [ht.1, ht.2]
    have hb := abs_le.mp (gauss_taylor_bound ht2)
    linarith [hb.1]
  have hint := intervalIntegral.integral_mono_on h0 (hpoly.intervalIntegrable 0 a)
    (gauss_intervalIntegrable 0 a) hle
  rw [integral_poly8] at hint
  linarith [hint]

theorem int_gauss_ub {a : ℝ} (h0 : 0 ≤ a) (h1 : a ≤ 1) :
    (∫ t in (0 : ℝ)..a, Real.exp (-(t ^ 2) / 2))
      ≤ a - a ^ 3 / 6 + a ^ 5 / 40 - a ^ 7 / 336 + 5 * a ^ 9 / 13824 := by
  have hpoly : Continuous fun t : ℝ =>
      1 + (-1 / 2) * t ^ 2 + (1 / 8) * t ^ 4 + (-1 / 48) * t ^ 6 + (5 / 1536) * t ^ 8 := by
    continuity
  have hle : ∀ t ∈ Set.Icc (0 : ℝ) a, Real.exp (-(t ^ 2) / 2)
      ≤ 1 + (-1 / 2) * t ^ 2 + (1 / 8) * t ^ 4 + (-1 / 48) * t ^ 6 + (5 / 1536) * t ^ 8 := by
    intro t ht
    have ht2 : t ^ 2 ≤ 2 := by nlinarith [ht.1, ht.2]
    have hb := abs_le.mp (gauss_taylor_bound ht2)
    linarith [hb.2]
  have hint := intervalIntegral.integral_mono_on h0 (gauss_intervalIntegrable 0 a)
    (hpoly.intervalIntegrable 0 a) hle
  rw [integral_poly8] at hint
  linarith [hint]

theorem sqrt_two_pi_lb : 2.506628 < Real.sqrt (2 * Real.pi) := by
  rw [Real.lt_sqrt (by norm_num)]
  nlinarith [Real.pi_gt_d6]

theorem sqrt_two_pi_ub : Real.sqrt (2 * Real.pi) < 2.50663 := by
  rw [Real.sqrt_lt' (by norm_num)]
  nlinarith [Real.pi_lt_d6]

theorem exp_neg_one_twentieth_bounds :
    0.9512288 ≤ Real.exp (-(1 / 20)) ∧ Real.exp (-(1 / 20)) ≤ 0.9512295 := by
  have hx : |(-(1 / 20) : ℝ)| ≤ 1 := by
    rw [abs_le]
    norm_num
  have h := Real.exp_bound hx (n := 4) (by norm_num)
  have hsum : (∑ m ∈ Finset.range 4, (-(1 / 20) : ℝ) ^ m / (m.factorial : ℝ))
      = 45659 / 48000 := by
    simp [Finset.sum_range_succ, Nat.factorial]
    norm_num
  have habs : |(-(1 / 20) : ℝ)| = 1 / 20 := by
    rw [abs_of_nonpos (by norm_num)]
    norm_num
  rw [hsum, habs] at h
  have h' := abs_le.mp h
  have hrhs : ((1 : ℝ) / 20) ^ 4 * ((4 : ℕ).succ / ((4 : ℕ).factorial * (4 : ℕ)))
      = 1 / 3072000 := by
    norm_num [Nat.factorial]
  rw [hrhs] at h'
  constructor <;> [linarith [h'.1]; linarith [h'.2]]

theorem normCdf_35_bounds :
    0.6368305 ≤ normCdf (7 / 20) ∧ normCdf (7 / 20) ≤ 0.6368307 := by
  have hlo := int_gauss_lb (a := 7 / 20) (by norm_num) (by norm_num)
  have hub := int_gauss_ub (a := 7 / 20) (by norm_num) (by norm_num)
  have hsp := sqrt_two_pi_pos
  have hs1 := sqrt_two_pi_lb
  have hs2 := sqrt_two_pi_ub
  have hI0 : (0 : ℝ) ≤ ∫ t in (0 : ℝ)..(7 / 20), Real.exp (-(t ^ 2) / 2) :=
    le_trans (by norm_num) hlo
  have key1 := div_le_div₀ hI0 hlo hsp hs2.le
  have key2 := div_le_div₀ (by norm_num) hub (by norm_num : (0 : ℝ) < 2.506628) hs1.le
  rw [normCdf_eq_add]
  constructor
  · norm_num at key1 ⊢
    linarith [key1]
  · norm_num at key2 ⊢
    linarith [key2]

theorem normCdf_15_bounds :
    0.5596176 ≤ normCdf (3 / 20) ∧ normCdf (3 / 20) ≤ 0.5596177 := by
  have hlo := int_gauss_lb (a := 3 / 20) (by norm_num) (by norm_num)
  have hub := int_gauss_ub (a := 3 / 20) (by norm_num) (by norm_num)
  have hsp := sqrt_two_pi_pos
  have hs1 := sqrt_two_pi_lb
  have hs2 := sqrt_two_pi_ub
  have hI0 : (0 : ℝ) ≤ ∫ t in (0 : ℝ)..(3 / 20), Real.exp (-(t ^ 2) / 2) :=
    le_trans (by norm_num) hlo
  have key1 := div_le_div₀ hI0 hlo hsp hs2.le
  have key2 := div_le_div₀ (by norm_num) hub (by norm_num : (0 : ℝ) < 2.506628) hs1.le
  rw [normCdf_eq_add]
  constructor
  · norm_num at key1 ⊢
    linarith [key1]
  · norm_num at key2 ⊢
    linarith [key2]

theorem d1_d2_at_base : calculate_d1_d2 100 100 0.05 0.2 1 = (7 / 20, 3 / 20) := by
  unfold calculate_d1_d2
  have h100 : (100 : ℝ) / 100 = 1 := by norm_num
  rw [h100, Real.log_one, Real.sqrt_one]
  norm_num [Prod.ext_iff]

theorem price_base_eq :
    calculate_option_price 100 100 0.05 0.2 1 "call"
      = 100 * normCdf (7 / 20) - 100 * Real.exp (-(1 / 20)) * normCdf (3 / 20) := by
  have hc : pyLower "call" = "call" := rfl
  simp only [calculate_option_price, if_pos hc, d1_d2_at_base]
  norm_num

theorem price_base_approx :
    |calculate_option_price 100 100 0.05 0.2 1 "call" - 10.4506| < 1e-3 := by
  have h35 := normCdf_35_bounds
  have h15 := normCdf_15_bounds
  have hE := exp_neg_one_twentieth_bounds
  have hprod_u : Real.exp (-(1 / 20)) * normCdf (3 / 20) ≤ 0.9512295 * 0.5596177 :=
    mul_le_mul hE.2 h15.2 (le_trans (by norm_num) h15.1) (by norm_num)
  have hprod_l : 0.9512288 * 0.5596176 ≤ Real.exp (-(1 / 20)) * normCdf (3 / 20) :=
    mul_le_mul hE.1 h15.1 (by norm_num) (le_trans (by norm_num) hE.1)
  rw [price_base_eq, abs_lt]
  constructor <;> nlinarith [h35.1, h35.2, hprod_u, hprod_l]

/-- C1: `calculate_option_price` returns the Black-Scholes closed form for
each branch, and on the concrete scenario S=100, K=100, r=0.05, σ=0.20,
T=1 the Call price is within `1e-3` of 10.4506. -/
theorem C1_price_formula (S K r sigma T : ℝ)
    (_hS : 0 < S) (_hK : 0 < K) (_hsig : 0 < sigma) (_hT : 0 < T) (ot : String) :
    (pyLower ot = "call" →
      calculate_option_price S K r sigma T ot
        = S * normCdf (calculate_d1_d2 S K r sigma T).1
          - K * Real.exp (-(r * T)) * normCdf (calculate_d1_d2 S K r sigma T).2)
    ∧ (pyLower ot ≠ "call" →
      calculate_option_price S K r sigma T ot
        = K * Real.exp (-(r * T)) * normCdf (-(calculate_d1_d2 S K r sigma T).2)
          - S * normCdf (-(calculate_d1_d2 S K r sigma T).1))
    ∧ |calculate_option_price 100 100 0.05 0.2 1 "call" - 10.4506| < 1e-3 := by
  refine ⟨?_, ?_, price_base_approx⟩
  · intro h
    simp [calculate_option_price, h, neg_mul]
  · intro h
    simp [calculate_option_price, if_neg h, neg_mul]

/-- Witness for C1 at concrete inputs and both branches. -/
theorem C1_price_formula_witness :
    calculate_option_price 100 100 0.05 0.2 1 "put"
      = 100 * Real.exp (-(0.05 * 1)) * normCdf (-(calculate_d1_d2 100 100 0.05 0.2 1).2)
        - 100 * normCdf (-(calculate_d1_d2 100 100 0.05 0.2 1).1)
    ∧ |calculate_option_price 100 100 0.05 0.2 1 "call" - 10.4506| < 1e-3 :=
  ⟨(C1_price_formula 100 100 0.05 0.2 1 (by norm_num) (by norm_num) (by norm_num)
      (by norm_num) "put").2.1 (by decide),
   (C1_price_formula 100 100 0.05 0.2 1 (by norm_num) (by norm_num) (by norm_num)
      (by norm_num) "call").2.2⟩
